import Mathlib

/-!
Verification development for the dependencies-analyzer repository.

The repository is a single sequential Node script (two observed variants:
`src/index.js`, the newer one, and an older variant with a Node-14 column).
We shallowly embed its pure data flow in Lean:

* network calls (`axios.get`), the external `semver.intersects` library,
  the `libyear` child process and the `npm-check` library are modelled as
  explicit outcome parameters / oracles (`Except` values or functions
  producing them), since their behaviour is external to this repository;
  for the registry client two response models are given: the full model
  (`ResponseData`), in which a resolved request may deliver a malformed
  body — a raw string under axios's default `silentJSONParsing`, or a JSON
  object without a `versions` mapping — and the well-formed restriction
  (`NpmData`), under which the downstream pipeline is total; their
  agreement on well-formed bodies is proved;
* JavaScript truthiness on the string/number fields that the script feeds
  through `||` defaults is modelled explicitly (`none`, the empty string
  and the number 0 are falsy);
* a JavaScript `TypeError` caused by a property access on `undefined`,
  and an `await` on a rejected promise that no caller catches, are both
  modelled as the `Except.error` case of the functions that can encounter
  them: either one aborts the run before the CSV is written;
* `Number.prototype.toFixed(2)` is modelled over exact rationals (choose
  the integer n minimising the distance of n/100 to the value, ties going
  to the larger n, per the ECMAScript algorithm applied to the absolute
  value with the sign re-attached).
-/

namespace DepAnalyzer

/-! ## JavaScript value helpers -/

/-- JS `v || d` for an optional string `v`: `undefined` and `""` are falsy. -/
def jsOrString (v : Option String) (d : String) : String :=
  match v with
  | none => d
  | some s => if s = "" then d else s

/-- JS `v || d` for an optional boolean `v`: `undefined` and `false` are falsy. -/
def jsOrBool (v : Option Bool) (d : Bool) : Bool :=
  match v with
  | none => d
  | some b => b || d

/-- Decimal digit list of a natural number, most significant digit first;
structural recursion on a fuel bound so that it reduces in the kernel. -/
def natDigitsAux : ℕ → ℕ → List Char
  | 0, _ => []
  | _fuel + 1, n =>
    if n < 10 then [Nat.digitChar n]
    else natDigitsAux _fuel (n / 10) ++ [Nat.digitChar (n % 10)]

/-- Decimal digit list of a natural number (`n + 1` fuel always suffices). -/
def natDigits (n : ℕ) : List Char :=
  natDigitsAux (n + 1) n

/-- Decimal rendering of a natural number. -/
def natToString (n : ℕ) : String :=
  ⟨natDigits n⟩

/-- Decimal rendering of an integer. -/
def intToString (n : ℤ) : String :=
  if n < 0 then "-" ++ natToString n.natAbs else natToString n.natAbs

/-- Two decimal digits of `k % 100`, zero padded. -/
def pad2 (k : ℕ) : String :=
  ⟨[Nat.digitChar (k / 10 % 10), Nat.digitChar (k % 10)]⟩

/-- `toFixed(2)` on a nonnegative rational: round to the nearest hundredth,
ties toward the larger integer numerator. -/
def toFixed2Abs (q : ℚ) : String :=
  let n : ℕ := (⌊q * 100 + 1/2⌋).toNat
  natToString (n / 100) ++ "." ++ pad2 (n % 100)

/-- JS `value.toFixed(2)` modelled over exact rationals. -/
def toFixed2 (q : ℚ) : String :=
  if q < 0 then "-" ++ toFixed2Abs (-q) else toFixed2Abs q

/-- JS `s.replace(".", ",")`: replace the first occurrence of a dot. -/
def replaceFirstDot : List Char → List Char
  | [] => []
  | c :: cs => if c = '.' then ',' :: cs else c :: replaceFirstDot cs

/-- `formatDecimal` (src/index.js lines 126-131): a defined number becomes a
two-decimal string with a comma separator, `undefined`/`null` become
"Unknown". -/
def formatDecimal (value : Option ℚ) : String :=
  match value with
  | some q => ⟨replaceFirstDot (toFixed2 q).data⟩
  | none => "Unknown"

/-! ## Registry client and Node-compatibility resolver (src/index.js 27-61, 188-211) -/

/-- The well-formed `versions` object of a registry response: published
version strings paired with the optional chain
`versions[v]?.engines?.node`. -/
structure NpmData where
  versions : List (String × Option String)
  deriving DecidableEq, Repr

/-- Result of `fetchNpmPackageInfo` on the well-formed restriction: either
the parsed registry body or the string sentinel "N/A" produced by the catch
branch. -/
inductive RegistryResult where
  | na
  | data (d : NpmData)
  deriving DecidableEq, Repr

/-- Oracle for `semver.intersects`: `.error` models a thrown range-parse
exception. -/
abbrev Intersects := String → String → Except String Bool

/-- Oracle for `axios.get` on the registry URL of a package name, restricted
to well-formed resolved bodies: `.error` models a rejected request (network
error or non-2xx). The full oracle, whose resolved bodies may be malformed,
is `AxiosGetFull` below; the pipelines over the two models are proved to
agree on well-formed bodies. -/
abbrev AxiosGet := String → Except String NpmData

/-- `isCompatibleWithNodeVersion` (src/index.js 27-35): falsy engine range
(absent or empty) is incompatible; a `semver.intersects` throw is caught and
reported as incompatible. -/
def isCompatibleWithNodeVersion (intersects : Intersects)
    (engineRange : Option String) (nodeVersionRange : String) : Bool :=
  match engineRange with
  | none => false
  | some r =>
    if r = "" then false
    else
      match intersects r nodeVersionRange with
      | .ok b => b
      | .error _ => false

/-- `findLatestCompatibleVersion` (src/index.js 37-51): filter the published
versions by engine-range intersection and take the last key in iteration
order, else "Not informed". -/
def findLatestCompatibleVersion (intersects : Intersects)
    (npmData : Option NpmData) (nodeVersion : String) : String :=
  match npmData with
  | none => "Not informed"
  | some d =>
    let compatibleVersions :=
      (d.versions.filter fun v =>
        isCompatibleWithNodeVersion intersects v.2 nodeVersion).map Prod.fst
    match compatibleVersions.getLast? with
    | some v => v
    | none => "Not informed"

/-- `fetchNpmPackageInfo` (src/index.js 53-61): return the response body on
success, the "N/A" sentinel on any failure of the request. -/
def fetchNpmPackageInfo (axiosGet : AxiosGet) (packageName : String) : RegistryResult :=
  match axiosGet packageName with
  | .ok d => .data d
  | .error _ => .na

/-- Per-dependency compatibility columns of the newer variant. -/
structure NodeCompat where
  node16Version : String
  node18Version : String
  node20Version : String
  deriving DecidableEq, Repr

/-- `findNodeCompatibility` (src/index.js 188-200). -/
def findNodeCompatibility (intersects : Intersects) (axiosGet : AxiosGet)
    (dependency : String) : NodeCompat :=
  match fetchNpmPackageInfo axiosGet dependency with
  | .na => { node16Version := "N/A", node18Version := "N/A", node20Version := "N/A" }
  | .data npmData =>
    { node16Version := findLatestCompatibleVersion intersects (some npmData) "^16.0.0"
      node18Version := findLatestCompatibleVersion intersects (some npmData) "^18.0.0"
      node20Version := findLatestCompatibleVersion intersects (some npmData) "^20.0.0" }

/-! ### Full registry-response model

`response.data` of a resolved request is not guaranteed well-formed: with
axios's default `silentJSONParsing`, a 200 body that is not valid JSON
resolves and is delivered as the raw text, and a valid JSON body need not
carry a `versions` key. The definitions below re-embed the same three
source functions over this full model, in which a JS property access
`npmData.versions` on a value without that property yields `undefined` and
`Object.keys(undefined)` throws a `TypeError` that propagates. -/

/-- `response.data` of a resolved registry request: a parsed JSON object
(whose `versions` key may be absent) or a body kept as raw text because it
failed JSON parsing. -/
inductive ResponseData where
  | obj (versions : Option (List (String × Option String)))
  | str (s : String)
  deriving DecidableEq, Repr

/-- JS truthiness of a response value: an object is always truthy, a string
is truthy iff non-empty. -/
def ResponseData.truthy : ResponseData → Bool
  | .obj _ => true
  | .str s => !(s == "")

/-- JS `npmData === 'N/A'`: only the very string compares strictly equal. -/
def ResponseData.isNaSentinel : ResponseData → Bool
  | .obj _ => false
  | .str s => s == "N/A"

/-- Full oracle for `axios.get` on the registry URL of a package name:
`.error` is a rejected request, `.ok` carries `response.data` as delivered,
malformed bodies included. -/
abbrev AxiosGetFull := String → Except String ResponseData

/-- `fetchNpmPackageInfo` (src/index.js 53-61) over the full model: a
resolved request returns `response.data` unchecked, a rejected request is
caught and returns the string 'N/A'. -/
def fetchNpmPackageInfoFull (axiosGet : AxiosGetFull) (packageName : String) :
    ResponseData :=
  match axiosGet packageName with
  | .ok d => d
  | .error _ => .str "N/A"

/-- `findLatestCompatibleVersion` (src/index.js 37-51) over the full model:
the `!npmData` guard returns "Not informed"; otherwise
`Object.keys(npmData.versions)` throws when the `versions` property is
`undefined` (raw-string body, or object without the key). -/
def findLatestCompatibleVersionFull (intersects : Intersects)
    (npmData : ResponseData) (nodeVersion : String) : Except String String :=
  if !npmData.truthy then .ok "Not informed"
  else
    match npmData with
    | .str _ => .error "TypeError: Object.keys(undefined)"
    | .obj none => .error "TypeError: Object.keys(undefined)"
    | .obj (some versions) =>
      .ok (match ((versions.filter fun v =>
          isCompatibleWithNodeVersion intersects v.2 nodeVersion).map
            Prod.fst).getLast? with
        | some v => v
        | none => "Not informed")

/-- `findNodeCompatibility` (src/index.js 188-200) over the full model: the
`!npmData || npmData === 'N/A'` guard, then the three sequential resolver
calls, any thrown `TypeError` propagating to the caller. -/
def findNodeCompatibilityFull (intersects : Intersects) (axiosGet : AxiosGetFull)
    (dependency : String) : Except String NodeCompat :=
  let npmData := fetchNpmPackageInfoFull axiosGet dependency
  if !npmData.truthy || npmData.isNaSentinel then
    .ok { node16Version := "N/A", node18Version := "N/A", node20Version := "N/A" }
  else
    match findLatestCompatibleVersionFull intersects npmData "^16.0.0" with
    | .error e => .error e
    | .ok node16Version =>
      match findLatestCompatibleVersionFull intersects npmData "^18.0.0" with
      | .error e => .error e
      | .ok node18Version =>
        match findLatestCompatibleVersionFull intersects npmData "^20.0.0" with
        | .error e => .error e
        | .ok node20Version =>
          .ok { node16Version := node16Version, node18Version := node18Version
                node20Version := node20Version }

/-! ## Manifest parsing (src/index.js 95-124) -/

/-- Parsed `package.json`: the two dependency groups as ordered name-range
association lists; an absent group is `none` and defaults to empty. -/
structure PackageJson where
  dependencies : Option (List (String × String))
  devDependencies : Option (List (String × String))
  deriving DecidableEq, Repr

/-- One Dependency Declaration produced by `analyzeDependencies`. -/
structure DependencyDecl where
  dependency : String
  type : String
  version : String
  module : String
  deriving DecidableEq, Repr

/-- `analyzeDependencies` (src/index.js 95-124); `dirName` stands for
`path.basename(path.dirname(packageJsonPath))` and `rootDirName` for
`path.basename(rootDir)`. -/
def analyzeDependencies (dirName rootDirName : String)
    (packageJson : PackageJson) : List DependencyDecl :=
  let productionDeps := packageJson.dependencies.getD []
  let devDeps := packageJson.devDependencies.getD []
  let module := if dirName = rootDirName then dirName else rootDirName ++ "/" ++ dirName
  (productionDeps.map fun p =>
    { dependency := p.1, type := "production", version := p.2, module := module })
    ++ devDeps.map fun p =>
      { dependency := p.1, type := "development", version := p.2, module := module }

/-! ## External analyzer adapters (src/index.js 63-93) -/

/-- One record of the libyear JSON output; fields that a record can lack are
optional, `drift`/`pulse` are fractional, the counts integral. -/
structure LibyearRecord where
  dependency : String
  available : Option String
  drift : Option ℚ
  pulse : Option ℚ
  releases : Option ℤ
  major : Option ℤ
  minor : Option ℤ
  patch : Option ℤ
  deriving DecidableEq, Repr

/-- The value a resolved libyear promise carries: either a parsed JSON array
of records, or any non-array value (the non-empty `stderr` text that line 74
resolves with, or non-array JSON), kept abstractly as a string. -/
inductive LibyearValue where
  | arr (records : List LibyearRecord)
  | nonArr (value : String)
  deriving DecidableEq, Repr

/-- Outcome of the `exec` callback for `libyear --json` in one directory. -/
inductive ExecOutcome where
  | execError (e : String)
  | stderrNonEmpty (stderr : String)
  | success (parsed : LibyearValue)
  deriving DecidableEq, Repr

/-- `runLibyearAnalysis` (src/index.js 63-80) as a promise outcome: an `exec`
error rejects the promise, non-empty `stderr` resolves with that text, and a
normal exit resolves with the parsed JSON. -/
def runLibyearAnalysis : ExecOutcome → Except String LibyearValue
  | .execError e => .error e
  | .stderrNonEmpty stderr => .ok (.nonArr stderr)
  | .success parsed => .ok parsed

/-- One record of the npm-check `packages` list. -/
structure NpmCheckRecord where
  moduleName : String
  latest : Option String
  packageWanted : Option String
  easyUpgrade : Option Bool
  unused : Option Bool
  deriving DecidableEq, Repr

/-- `runNpmCheck` (src/index.js 82-93): the library outcome is caught, a
failure yields the empty list. -/
def runNpmCheck : Except String (List NpmCheckRecord) → List NpmCheckRecord
  | .ok packages => packages
  | .error _ => []

/-! ## Report assembly, newer variant (src/index.js 126-156, 202-251) -/

/-- JS `count || '0'` where `count` is an optional number: `undefined` and 0
are falsy and give the string "0", any other number is rendered as itself. -/
def jsCountOr (v : Option ℤ) : String :=
  match v with
  | none => "0"
  | some n => if n = 0 then "0" else intToString n

/-- A Report Row of the newer variant, fields in source order. -/
structure ReportRow where
  module : String
  dependency : String
  type : String
  currentVersion : String
  latestVersion : String
  npmLatest : String
  npmWanted : String
  easyUpgrade : Bool
  node16Version : String
  node18Version : String
  node20Version : String
  unused : Bool
  drift : String
  pulse : String
  releases : String
  major : String
  minor : String
  patch : String
  deriving DecidableEq, Repr

/-- `formatDependencyResult` (src/index.js 133-156): `npmCheckResult || {}`
makes every npm-check field default, optional chaining on a missing libyear
record yields `undefined` for each of its fields. -/
def formatDependencyResult (dep : DependencyDecl)
    (libyearDepResult : Option LibyearRecord) (npmCheckResult : Option NpmCheckRecord)
    (node16Version node18Version node20Version : String) : ReportRow :=
  { module := dep.module
    dependency := dep.dependency
    type := dep.type
    currentVersion := dep.version
    latestVersion := jsOrString (libyearDepResult.bind (·.available)) "Unknown"
    npmLatest := jsOrString (npmCheckResult.bind (·.latest)) "Unknown"
    npmWanted := jsOrString (npmCheckResult.bind (·.packageWanted)) "Unknown"
    easyUpgrade := jsOrBool (npmCheckResult.bind (·.easyUpgrade)) false
    node16Version := node16Version
    node18Version := node18Version
    node20Version := node20Version
    unused := jsOrBool (npmCheckResult.bind (·.unused)) false
    drift := formatDecimal (libyearDepResult.bind (·.drift))
    pulse := formatDecimal (libyearDepResult.bind (·.pulse))
    releases := jsCountOr (libyearDepResult.bind (·.releases))
    major := jsCountOr (libyearDepResult.bind (·.major))
    minor := jsCountOr (libyearDepResult.bind (·.minor))
    patch := jsCountOr (libyearDepResult.bind (·.patch)) }

/-- One record pushed by `runNodeCompatibility` (src/index.js 202-211). -/
structure CompatRecord where
  dependency : String
  node16Version : String
  node18Version : String
  node20Version : String
  deriving DecidableEq, Repr

/-- `runNodeCompatibility` (src/index.js 202-211): one record per input
declaration, in order, spreading the per-runtime columns. -/
def runNodeCompatibility (intersects : Intersects) (axiosGet : AxiosGet)
    (dependencies : List DependencyDecl) : List CompatRecord :=
  dependencies.map fun dep =>
    let nodeCompatibility := findNodeCompatibility intersects axiosGet dep.dependency
    { dependency := dep.dependency
      node16Version := nodeCompatibility.node16Version
      node18Version := nodeCompatibility.node18Version
      node20Version := nodeCompatibility.node20Version }

/-- The per-dependency body of the main loop (src/index.js 239-245): the
three `find` joins, then `formatDependencyResult`. Line 243 reads the
compatibility columns off `nodeCompatibilityResult` without a guard, so a
missed compatibility join is a thrown `TypeError`, modelled as `.error`. -/
def buildRow (dep : DependencyDecl) (libyearResults : List LibyearRecord)
    (npmCheckResults : List NpmCheckRecord)
    (nodeCompatibilityResults : List CompatRecord) : Except String ReportRow :=
  let libyearDepResult := libyearResults.find? fun r => r.dependency == dep.dependency
  let npmCheckDepResult := npmCheckResults.find? fun r => r.moduleName == dep.dependency
  match nodeCompatibilityResults.find? fun r => r.dependency == dep.dependency with
  | none => .error "TypeError: nodeCompatibilityResult is undefined"
  | some c =>
    .ok (formatDependencyResult dep libyearDepResult npmCheckDepResult
      c.node16Version c.node18Version c.node20Version)

/-- The inner `for (const dep of dependencies)` loop of src/index.js 239-245,
accumulating the rows pushed to `csvData`; a thrown `TypeError` aborts. -/
def processDeps (deps : List DependencyDecl) (libyearResults : List LibyearRecord)
    (npmCheckResults : List NpmCheckRecord)
    (nodeCompatibilityResults : List CompatRecord) : Except String (List ReportRow) :=
  match deps with
  | [] => .ok []
  | dep :: rest =>
    match buildRow dep libyearResults npmCheckResults nodeCompatibilityResults with
    | .error e => .error e
    | .ok row =>
      match processDeps rest libyearResults npmCheckResults nodeCompatibilityResults with
      | .error e => .error e
      | .ok rows => .ok (row :: rows)

/-- Everything external that one iteration of the manifest loop consumes:
the manifest's directory basename, its parsed content, and the outcomes of
the two per-directory external analyses. -/
structure ManifestInput where
  dirName : String
  packageJson : PackageJson
  libyearExec : ExecOutcome
  npmCheckOutcome : Except String (List NpmCheckRecord)
  deriving Repr

/-- The manifest loop of src/index.js 227-247. The `await` on
`runLibyearAnalysis` at line 230 sits in no try/catch, so a rejected promise
propagates out of the loop and the run aborts (`.error`) with no CSV ever
written; a resolved non-array value hits the `Array.isArray` guard at line
234 and the loop continues with the next manifest. -/
def mainLoop (intersects : Intersects) (axiosGet : AxiosGet) (rootDirName : String) :
    List ManifestInput → Except String (List ReportRow)
  | [] => .ok []
  | m :: rest =>
    let dependencies := analyzeDependencies m.dirName rootDirName m.packageJson
    match runLibyearAnalysis m.libyearExec with
    | .error e => .error e
    | .ok libyearResults =>
      let npmCheckResults := runNpmCheck m.npmCheckOutcome
      let nodeCompatibilityResults := runNodeCompatibility intersects axiosGet dependencies
      match libyearResults with
      | .nonArr _ => mainLoop intersects axiosGet rootDirName rest
      | .arr libyearList =>
        match processDeps dependencies libyearList npmCheckResults nodeCompatibilityResults with
        | .error e => .error e
        | .ok rows =>
          match mainLoop intersects axiosGet rootDirName rest with
          | .error e => .error e
          | .ok restRows => .ok (rows ++ restRows)

/-- The `(id, title)` pairs of the `generateCsv` header (src/index.js
158-186). -/
def generateCsvHeader : List (String × String) :=
  [("module", "Module"),
   ("dependency", "Dependency"),
   ("type", "Type"),
   ("currentVersion", "Current version"),
   ("latestVersion", "Libyear latest version"),
   ("npmLatest", "NPM latest version"),
   ("npmWanted", "Wanted version"),
   ("easyUpgrade", "Easy upgrade"),
   ("node16Version", "Node 16"),
   ("node18Version", "Node 18"),
   ("node20Version", "Node 20"),
   ("unused", "Unused"),
   ("drift", "Drift"),
   ("pulse", "Pulse"),
   ("releases", "Releases"),
   ("major", "Major"),
   ("minor", "Minor"),
   ("patch", "Patch")]

/-! ## Older report variant (src/unnamed/part_000)

The older file shares every definition above except the four functions below:
its compatibility resolver adds a Node 14 column, and its
`formatDependencyResult` derives a `nodeUpgradeBlocking` field. -/

namespace Older

/-- Per-dependency compatibility columns of the older variant
(src/unnamed/part_000 lines 193-206). -/
structure NodeCompat where
  node14 : String
  node16 : String
  node18 : String
  node20 : String
  deriving DecidableEq, Repr

/-- `findNodeCompatibility` of the older variant (src/unnamed/part_000
193-206). -/
def findNodeCompatibility (intersects : Intersects) (axiosGet : AxiosGet)
    (dependency : String) : NodeCompat :=
  match fetchNpmPackageInfo axiosGet dependency with
  | .na => { node14 := "N/A", node16 := "N/A", node18 := "N/A", node20 := "N/A" }
  | .data npmData =>
    { node14 := findLatestCompatibleVersion intersects (some npmData) "^14.0.0"
      node16 := findLatestCompatibleVersion intersects (some npmData) "^16.0.0"
      node18 := findLatestCompatibleVersion intersects (some npmData) "^18.0.0"
      node20 := findLatestCompatibleVersion intersects (some npmData) "^20.0.0" }

/-- One record pushed by the older `runNodeCompatibility`
(src/unnamed/part_000 208-217). -/
structure CompatRecord where
  dependency : String
  node14 : String
  node16 : String
  node18 : String
  node20 : String
  deriving DecidableEq, Repr

/-- `runNodeCompatibility` of the older variant (src/unnamed/part_000
208-217). -/
def runNodeCompatibility (intersects : Intersects) (axiosGet : AxiosGet)
    (dependencies : List DependencyDecl) : List CompatRecord :=
  dependencies.map fun dep =>
    let nodeCompatibility := findNodeCompatibility intersects axiosGet dep.dependency
    { dependency := dep.dependency
      node14 := nodeCompatibility.node14
      node16 := nodeCompatibility.node16
      node18 := nodeCompatibility.node18
      node20 := nodeCompatibility.node20 }

/-- A Report Row of the older variant, fields in source order, including the
derived `nodeUpgradeBlocking` field. -/
structure ReportRow where
  module : String
  dependency : String
  type : String
  currentVersion : String
  latestVersion : String
  npmLatest : String
  npmWanted : String
  easyUpgrade : Bool
  unused : Bool
  node14 : String
  node16 : String
  node18 : String
  node20 : String
  nodeUpgradeBlocking : String
  drift : String
  pulse : String
  releases : String
  major : String
  minor : String
  patch : String
  deriving DecidableEq, Repr

/-- `formatDependencyResult` of the older variant (src/unnamed/part_000
133-159): `isNotNodeUpgradeBlocking` chains strict equality over the four
runtime columns, and the field renders as the literal "FALSE"/"TRUE". -/
def formatDependencyResult (dep : DependencyDecl)
    (libyearDepResult : Option LibyearRecord) (npmCheckResult : Option NpmCheckRecord)
    (node14 node16 node18 node20 : String) : ReportRow :=
  let isNotNodeUpgradeBlocking := node14 == node16 && node16 == node18 && node18 == node20
  { module := dep.module
    dependency := dep.dependency
    type := dep.type
    currentVersion := dep.version
    latestVersion := jsOrString (libyearDepResult.bind (·.available)) "Unknown"
    npmLatest := jsOrString (npmCheckResult.bind (·.latest)) "Unknown"
    npmWanted := jsOrString (npmCheckResult.bind (·.packageWanted)) "Unknown"
    easyUpgrade := jsOrBool (npmCheckResult.bind (·.easyUpgrade)) false
    unused := jsOrBool (npmCheckResult.bind (·.unused)) false
    node14 := node14
    node16 := node16
    node18 := node18
    node20 := node20
    nodeUpgradeBlocking := if isNotNodeUpgradeBlocking then "FALSE" else "TRUE"
    drift := formatDecimal (libyearDepResult.bind (·.drift))
    pulse := formatDecimal (libyearDepResult.bind (·.pulse))
    releases := jsCountOr (libyearDepResult.bind (·.releases))
    major := jsCountOr (libyearDepResult.bind (·.major))
    minor := jsCountOr (libyearDepResult.bind (·.minor))
    patch := jsCountOr (libyearDepResult.bind (·.patch)) }

/-- The `(id, title)` pairs of the older `generateCsv` header
(src/unnamed/part_000 161-191). -/
def generateCsvHeader : List (String × String) :=
  [("module", "Module"),
   ("dependency", "Dependency"),
   ("type", "Type"),
   ("currentVersion", "Current version"),
   ("latestVersion", "Libyear latest version"),
   ("npmLatest", "NPM latest version"),
   ("npmWanted", "Wanted version"),
   ("easyUpgrade", "Easy upgrade"),
   ("unused", "Unused"),
   ("node14", "Node 14"),
   ("node16", "Node 16"),
   ("node18", "Node 18"),
   ("node20", "Node 20"),
   ("nodeUpgradeBlocking", "Node upgrade blocking"),
   ("drift", "Drift"),
   ("pulse", "Pulse"),
   ("releases", "Releases"),
   ("major", "Major"),
   ("minor", "Minor"),
   ("patch", "Patch")]

end Older

/-! ## Concrete instances used to exercise the definitions

`exIntersects` tabulates `semver.intersects` on the ranges occurring in the
spec's worked example; the other instances are small concrete run inputs. -/

def exIntersects : Intersects := fun engineRange nodeRange =>
  if engineRange = ">=16" then
    .ok (nodeRange == "^16.0.0" || nodeRange == "^18.0.0" || nodeRange == "^20.0.0")
  else if engineRange = ">=12 <16" then
    .ok (nodeRange == "^14.0.0")
  else .error "Invalid range"

def exNpmData : NpmData :=
  { versions := [("1.0.0", some ">=12 <16"), ("2.0.0", some ">=16")] }

def exAxiosFail : AxiosGet := fun _ => .error "getaddrinfo ENOTFOUND registry.npmjs.org"

def exAxiosOk : AxiosGet := fun _ => .ok exNpmData

def exAxiosFullFail : AxiosGetFull :=
  fun _ => .error "getaddrinfo ENOTFOUND registry.npmjs.org"

def exAxiosFullOk : AxiosGetFull := fun _ => .ok (.obj (some exNpmData.versions))

def exAxiosMalformed : AxiosGetFull :=
  fun _ => .ok (.str "<html>503 Service Unavailable</html>")

def exAxiosNoVersions : AxiosGetFull := fun _ => .ok (.obj none)

def exPackageJson : PackageJson :=
  { dependencies := some [("a", "^1.0.0")], devDependencies := none }

def exDep : DependencyDecl :=
  { dependency := "a", type := "production", version := "^1.0.0", module := "root/lib" }

def exManifestOk : ManifestInput :=
  { dirName := "lib", packageJson := exPackageJson
    libyearExec := .success (.arr []), npmCheckOutcome := .ok [] }

def exManifestReject : ManifestInput :=
  { dirName := "app", packageJson := exPackageJson
    libyearExec := .execError "Libyear execution error", npmCheckOutcome := .ok [] }

def exManifestStderr : ManifestInput :=
  { dirName := "app", packageJson := exPackageJson
    libyearExec := .stderrNonEmpty "npm WARN deprecated", npmCheckOutcome := .ok [] }

def exManifestReject2 : ManifestInput :=
  { dirName := "m1", packageJson := exPackageJson
    libyearExec := .execError "libyear crashed", npmCheckOutcome := .ok [] }

/-! ## Helper lemmas -/

theorem digitChar_isDigit {d : ℕ} (h : d < 10) : (Nat.digitChar d).isDigit = true := by
  interval_cases d <;> decide

theorem natDigitsAux_isDigit (fuel n : ℕ) :
    ∀ c ∈ natDigitsAux fuel n, c.isDigit = true := by
  induction fuel generalizing n with
  | zero => intro c hc; simp [natDigitsAux] at hc
  | succ fuel ih =>
    intro c hc
    rw [natDigitsAux] at hc
    split at hc
    · next h =>
      rw [List.mem_singleton] at hc
      exact hc ▸ digitChar_isDigit h
    · next h =>
      rw [List.mem_append, List.mem_singleton] at hc
      rcases hc with hc | hc
      · exact ih (n / 10) c hc
      · exact hc ▸ digitChar_isDigit (Nat.mod_lt _ (by omega))

theorem natDigits_isDigit (n : ℕ) : ∀ c ∈ natDigits n, c.isDigit = true :=
  natDigitsAux_isDigit (n + 1) n

theorem isDigit_ne_dot {c : Char} (h : c.isDigit = true) : c ≠ '.' := by
  intro hc
  rw [hc] at h
  exact absurd h (by decide)

theorem replaceFirstDot_no_dot (l1 l2 : List Char) (h : ∀ c ∈ l1, c ≠ '.') :
    replaceFirstDot (l1 ++ '.' :: l2) = l1 ++ ',' :: l2 := by
  induction l1 with
  | nil => simp [replaceFirstDot]
  | cons c cs ih =>
    simp only [List.cons_append, replaceFirstDot, List.append_eq]
    rw [if_neg (h c (List.mem_cons_self ..))]
    exact congrArg (c :: ·) (ih fun x hx => h x (List.mem_cons_of_mem _ hx))

theorem toFixed2_data_nonneg (q : ℚ) (h : ¬q < 0) :
    (toFixed2 q).data =
      natDigits ((⌊q * 100 + 1/2⌋).toNat / 100) ++
        '.' :: (pad2 ((⌊q * 100 + 1/2⌋).toNat % 100)).data := by
  rw [toFixed2, if_neg h]
  show ((natToString ((⌊q * 100 + 1/2⌋).toNat / 100) ++ ".") ++
    pad2 ((⌊q * 100 + 1/2⌋).toNat % 100)).data = _
  rw [String.data_append, String.data_append, List.append_assoc]
  rfl

theorem toFixed2_data_neg (q : ℚ) (h : q < 0) :
    (toFixed2 q).data =
      ('-' :: natDigits ((⌊-q * 100 + 1/2⌋).toNat / 100)) ++
        '.' :: (pad2 ((⌊-q * 100 + 1/2⌋).toNat % 100)).data := by
  rw [toFixed2, if_pos h]
  show ("-" ++ ((natToString ((⌊-q * 100 + 1/2⌋).toNat / 100) ++ ".") ++
    pad2 ((⌊-q * 100 + 1/2⌋).toNat % 100))).data = _
  rw [String.data_append, String.data_append, String.data_append, List.append_assoc]
  rfl

theorem formatDecimal_some_nonneg (q : ℚ) (h : ¬q < 0) :
    formatDecimal (some q) =
      natToString ((⌊q * 100 + 1/2⌋).toNat / 100) ++ "," ++
        pad2 ((⌊q * 100 + 1/2⌋).toNat % 100) := by
  apply String.ext
  show replaceFirstDot (toFixed2 q).data =
    ((natToString ((⌊q * 100 + 1/2⌋).toNat / 100) ++ ",") ++
      pad2 ((⌊q * 100 + 1/2⌋).toNat % 100)).data
  rw [toFixed2_data_nonneg q h,
    replaceFirstDot_no_dot _ _ fun c hc => isDigit_ne_dot (natDigits_isDigit _ c hc),
    String.data_append, String.data_append, List.append_assoc]
  rfl

theorem formatDecimal_some_neg (q : ℚ) (h : q < 0) :
    formatDecimal (some q) =
      ("-" ++ natToString ((⌊-q * 100 + 1/2⌋).toNat / 100)) ++ "," ++
        pad2 ((⌊-q * 100 + 1/2⌋).toNat % 100) := by
  apply String.ext
  show replaceFirstDot (toFixed2 q).data =
    ((("-" ++ natToString ((⌊-q * 100 + 1/2⌋).toNat / 100)) ++ ",") ++
      pad2 ((⌊-q * 100 + 1/2⌋).toNat % 100)).data
  rw [toFixed2_data_neg q h, replaceFirstDot_no_dot _ _ ?hside,
    String.data_append, String.data_append, String.data_append, List.append_assoc,
    List.append_assoc]
  case hside =>
    intro c hc
    rw [List.mem_cons] at hc
    rcases hc with hc | hc
    · exact hc ▸ by decide
    · exact isDigit_ne_dot (natDigits_isDigit _ c hc)
  rfl

theorem pad2_length (k : ℕ) : (pad2 k).length = 2 := rfl

theorem pad2_isDigit (k : ℕ) : ((pad2 k).data.all Char.isDigit) = true := by
  simp only [pad2, List.all_cons, List.all_nil, Bool.and_true]
  rw [digitChar_isDigit (Nat.mod_lt _ (by omega)),
    digitChar_isDigit (Nat.mod_lt _ (by omega))]
  rfl

theorem runNodeCompatibility_names (intersects : Intersects) (axiosGet : AxiosGet)
    (deps : List DependencyDecl) :
    (runNodeCompatibility intersects axiosGet deps).map CompatRecord.dependency =
      deps.map DependencyDecl.dependency := by
  simp [runNodeCompatibility, List.map_map]

theorem older_runNodeCompatibility_names (intersects : Intersects) (axiosGet : AxiosGet)
    (deps : List DependencyDecl) :
    (Older.runNodeCompatibility intersects axiosGet deps).map Older.CompatRecord.dependency =
      deps.map DependencyDecl.dependency := by
  simp [Older.runNodeCompatibility, List.map_map]

theorem runNodeCompatibility_find (intersects : Intersects) (axiosGet : AxiosGet)
    (deps : List DependencyDecl) (name : String)
    (h : name ∈ deps.map DependencyDecl.dependency) :
    (runNodeCompatibility intersects axiosGet deps).find?
        (fun r => r.dependency == name) =
      some { dependency := name
             node16Version := (findNodeCompatibility intersects axiosGet name).node16Version
             node18Version := (findNodeCompatibility intersects axiosGet name).node18Version
             node20Version := (findNodeCompatibility intersects axiosGet name).node20Version } := by
  induction deps with
  | nil => simp at h
  | cons d ds ih =>
    rw [List.map_cons, List.mem_cons] at h
    show (({ dependency := d.dependency
             node16Version := (findNodeCompatibility intersects axiosGet d.dependency).node16Version
             node18Version := (findNodeCompatibility intersects axiosGet d.dependency).node18Version
             node20Version := (findNodeCompatibility intersects axiosGet d.dependency).node20Version
             : CompatRecord } ::
        runNodeCompatibility intersects axiosGet ds).find? fun r => r.dependency == name) = _
    by_cases hd : d.dependency = name
    · rw [List.find?_cons_of_pos _ (by simp [hd]), hd]
    · rw [List.find?_cons_of_neg _ (by simp [hd])]
      exact ih (h.resolve_left fun he => hd he.symm)

theorem buildRow_hit (intersects : Intersects) (axiosGet : AxiosGet)
    (deps : List DependencyDecl) (dep : DependencyDecl)
    (libyearResults : List LibyearRecord) (npmCheckResults : List NpmCheckRecord)
    (h : dep.dependency ∈ deps.map DependencyDecl.dependency) :
    buildRow dep libyearResults npmCheckResults
        (runNodeCompatibility intersects axiosGet deps) =
      .ok (formatDependencyResult dep
        (libyearResults.find? fun r => r.dependency == dep.dependency)
        (npmCheckResults.find? fun r => r.moduleName == dep.dependency)
        (findNodeCompatibility intersects axiosGet dep.dependency).node16Version
        (findNodeCompatibility intersects axiosGet dep.dependency).node18Version
        (findNodeCompatibility intersects axiosGet dep.dependency).node20Version) := by
  unfold buildRow
  rw [runNodeCompatibility_find intersects axiosGet deps dep.dependency h]

theorem processDeps_ok (intersects : Intersects) (axiosGet : AxiosGet)
    (deps2 deps : List DependencyDecl) (libyearResults : List LibyearRecord)
    (npmCheckResults : List NpmCheckRecord)
    (h : ∀ dep ∈ deps2, dep.dependency ∈ deps.map DependencyDecl.dependency) :
    ∃ rows, processDeps deps2 libyearResults npmCheckResults
        (runNodeCompatibility intersects axiosGet deps) = .ok rows ∧
      rows.length = deps2.length := by
  induction deps2 with
  | nil => exact ⟨[], rfl, rfl⟩
  | cons dep rest ih =>
    obtain ⟨rows, hrows, hlen⟩ := ih fun d hd => h d (List.mem_cons_of_mem _ hd)
    refine ⟨formatDependencyResult dep
        (libyearResults.find? fun r => r.dependency == dep.dependency)
        (npmCheckResults.find? fun r => r.moduleName == dep.dependency)
        (findNodeCompatibility intersects axiosGet dep.dependency).node16Version
        (findNodeCompatibility intersects axiosGet dep.dependency).node18Version
        (findNodeCompatibility intersects axiosGet dep.dependency).node20Version :: rows,
      ?_, by simp [hlen]⟩
    rw [processDeps,
      buildRow_hit intersects axiosGet deps dep libyearResults npmCheckResults
        (h dep (List.mem_cons_self ..)), hrows]

/-! ## Claims -/

/-- C1, counterexample to the claim as stated: with a first manifest whose
`libyear` process fails and a healthy second manifest, the run does not
continue to the second manifest with zero rows for the first, it aborts
with the rejection; the second conjunct shows the second manifest alone
would have produced one row had the run continued. -/
theorem C1_counterexample :
    mainLoop exIntersects exAxiosFail "root" [exManifestReject, exManifestOk] =
      .error "Libyear execution error"
    ∧ mainLoop exIntersects exAxiosFail "root" [exManifestOk] =
      .ok [{ module := "root/lib", dependency := "a", type := "production"
             currentVersion := "^1.0.0", latestVersion := "Unknown"
             npmLatest := "Unknown", npmWanted := "Unknown", easyUpgrade := false
             node16Version := "N/A", node18Version := "N/A", node20Version := "N/A"
             unused := false, drift := "Unknown", pulse := "Unknown"
             releases := "0", major := "0", minor := "0", patch := "0" }] :=
  ⟨rfl, rfl⟩

/-- C1 (amended): a Drift Analyzer process failure rejects
`runLibyearAnalysis`, the uncaught rejection aborts the whole run with that
error; only a resolved non-list result (such as the non-empty-stderr soft
success) is skipped with zero rows while the run continues to the next
manifest. -/
theorem C1_drift_failure_policy (intersects : Intersects) (axiosGet : AxiosGet)
    (rootDirName : String) (m : ManifestInput) (rest : List ManifestInput) :
    (∀ e, m.libyearExec = .execError e →
      mainLoop intersects axiosGet rootDirName (m :: rest) = .error e)
    ∧ (∀ s, m.libyearExec = .stderrNonEmpty s →
      mainLoop intersects axiosGet rootDirName (m :: rest) =
        mainLoop intersects axiosGet rootDirName rest) := by
  constructor
  · intro e he
    simp [mainLoop, runLibyearAnalysis, he]
  · intro s hs
    simp [mainLoop, runLibyearAnalysis, hs]

/-- C1 witness: the amended policy applied to concrete failing and
soft-failing manifests. -/
theorem C1_drift_failure_policy_witness :
    mainLoop exIntersects exAxiosFail "root" [exManifestReject, exManifestOk] =
      .error "Libyear execution error"
    ∧ mainLoop exIntersects exAxiosFail "root" [exManifestStderr, exManifestOk] =
      mainLoop exIntersects exAxiosFail "root" [exManifestOk] :=
  ⟨(C1_drift_failure_policy exIntersects exAxiosFail "root" exManifestReject
      [exManifestOk]).1 "Libyear execution error" rfl,
   (C1_drift_failure_policy exIntersects exAxiosFail "root" exManifestStderr
      [exManifestOk]).2 "npm WARN deprecated" rfl⟩

/-- C2, counterexample to the claim as stated: a registry request that
resolves with a malformed body (here a raw HTML error page, which axios
delivers as text under its default `silentJSONParsing`) is returned by the
Registry Client unchecked instead of as the "N/A" sentinel, and the
compatibility resolution then throws a `TypeError` that propagates to the
caller — contradicting both "returns the N/A sentinel on any failure
(including malformed body)" and "the compatibility resolution never
throws". -/
theorem C2_counterexample :
    fetchNpmPackageInfoFull exAxiosMalformed "lodash" =
      .str "<html>503 Service Unavailable</html>"
    ∧ findNodeCompatibilityFull exIntersects exAxiosMalformed "lodash" =
      .error "TypeError: Object.keys(undefined)" :=
  ⟨rfl, rfl⟩

/-- C2 (amended): when the registry request rejects (network error or
non-2xx), the Registry Client catches it and returns the 'N/A' string
sentinel, and the resolver yields "N/A" for every runtime column without a
thrown error; but a request that resolves with a malformed body — a
non-empty raw string other than 'N/A', or a JSON object without a
`versions` mapping — is returned unchecked, and the compatibility
resolution then throws a `TypeError`; on well-formed bodies the full
pipeline agrees with the well-formed-restriction resolver. -/
theorem C2_registry_failure_policy (intersects : Intersects)
    (axiosGet : AxiosGetFull) (packageName : String) :
    (∀ e, axiosGet packageName = .error e →
      fetchNpmPackageInfoFull axiosGet packageName = .str "N/A"
      ∧ findNodeCompatibilityFull intersects axiosGet packageName =
          .ok { node16Version := "N/A", node18Version := "N/A", node20Version := "N/A" })
    ∧ (∀ s, axiosGet packageName = .ok (.str s) → s ≠ "" → s ≠ "N/A" →
        fetchNpmPackageInfoFull axiosGet packageName = .str s
        ∧ findNodeCompatibilityFull intersects axiosGet packageName =
            .error "TypeError: Object.keys(undefined)")
    ∧ (axiosGet packageName = .ok (.obj none) →
        findNodeCompatibilityFull intersects axiosGet packageName =
          .error "TypeError: Object.keys(undefined)")
    ∧ (∀ versions, axiosGet packageName = .ok (.obj (some versions)) →
        findNodeCompatibilityFull intersects axiosGet packageName =
          .ok { node16Version :=
                  findLatestCompatibleVersion intersects (some ⟨versions⟩) "^16.0.0"
                node18Version :=
                  findLatestCompatibleVersion intersects (some ⟨versions⟩) "^18.0.0"
                node20Version :=
                  findLatestCompatibleVersion intersects (some ⟨versions⟩) "^20.0.0" }) := by
  refine ⟨?_, ?_, ?_, ?_⟩
  · intro e he
    refine ⟨?_, ?_⟩ <;>
      simp [fetchNpmPackageInfoFull, findNodeCompatibilityFull, he,
        ResponseData.truthy, ResponseData.isNaSentinel]
  · intro s hs hne hna
    refine ⟨?_, ?_⟩ <;>
      simp [fetchNpmPackageInfoFull, findNodeCompatibilityFull,
        findLatestCompatibleVersionFull, hs, hne, hna,
        ResponseData.truthy, ResponseData.isNaSentinel]
  · intro hobj
    simp [fetchNpmPackageInfoFull, findNodeCompatibilityFull,
      findLatestCompatibleVersionFull, hobj,
      ResponseData.truthy, ResponseData.isNaSentinel]
  · intro versions hv
    simp [fetchNpmPackageInfoFull, findNodeCompatibilityFull,
      findLatestCompatibleVersionFull, findLatestCompatibleVersion, hv,
      ResponseData.truthy, ResponseData.isNaSentinel]

/-- C2 witness: the amended policy applied to a concrete rejected request, a
concrete malformed resolved body, a concrete object body without a
`versions` mapping, and a concrete well-formed body. -/
theorem C2_registry_failure_policy_witness :
    (fetchNpmPackageInfoFull exAxiosFullFail "left-pad" = .str "N/A"
      ∧ findNodeCompatibilityFull exIntersects exAxiosFullFail "left-pad" =
          .ok { node16Version := "N/A", node18Version := "N/A", node20Version := "N/A" })
    ∧ (fetchNpmPackageInfoFull exAxiosMalformed "left-pad" =
          .str "<html>503 Service Unavailable</html>"
      ∧ findNodeCompatibilityFull exIntersects exAxiosMalformed "left-pad" =
          .error "TypeError: Object.keys(undefined)")
    ∧ findNodeCompatibilityFull exIntersects exAxiosNoVersions "left-pad" =
        .error "TypeError: Object.keys(undefined)"
    ∧ findNodeCompatibilityFull exIntersects exAxiosFullOk "left-pad" =
        .ok { node16Version :=
                findLatestCompatibleVersion exIntersects (some ⟨exNpmData.versions⟩) "^16.0.0"
              node18Version :=
                findLatestCompatibleVersion exIntersects (some ⟨exNpmData.versions⟩) "^18.0.0"
              node20Version :=
                findLatestCompatibleVersion exIntersects (some ⟨exNpmData.versions⟩) "^20.0.0" } :=
  ⟨(C2_registry_failure_policy exIntersects exAxiosFullFail "left-pad").1
      "getaddrinfo ENOTFOUND registry.npmjs.org" rfl,
   (C2_registry_failure_policy exIntersects exAxiosMalformed "left-pad").2.1
      "<html>503 Service Unavailable</html>" rfl (by decide) (by decide),
   (C2_registry_failure_policy exIntersects exAxiosNoVersions "left-pad").2.2.1 rfl,
   (C2_registry_failure_policy exIntersects exAxiosFullOk "left-pad").2.2.2
      exNpmData.versions rfl⟩

/-- C3: the resolver filters the published versions by engine-range
intersection with the runtime range and returns the last entry of the
filtered set in iteration order, "Not informed" when the set is empty; the
spec's worked example (2.0.0 with ">=16", 1.0.0 with ">=12 <16") resolves
to 2.0.0 under ^18.0.0 and to 1.0.0 under ^14.0.0. -/
theorem C3_compat_resolver_last_of_filter (intersects : Intersects) (d : NpmData)
    (nodeVersion : String) :
    findLatestCompatibleVersion intersects (some d) nodeVersion =
      (((d.versions.filter fun v =>
        isCompatibleWithNodeVersion intersects v.2 nodeVersion).map
          Prod.fst).getLast?).getD "Not informed"
    ∧ findLatestCompatibleVersion exIntersects (some exNpmData) "^18.0.0" = "2.0.0"
    ∧ findLatestCompatibleVersion exIntersects (some exNpmData) "^14.0.0" = "1.0.0" := by
  refine ⟨?_, rfl, rfl⟩
  show (match ((d.versions.filter fun v =>
      isCompatibleWithNodeVersion intersects v.2 nodeVersion).map
        Prod.fst).getLast? with
    | some v => v
    | none => "Not informed") = _
  cases ((d.versions.filter fun v =>
      isCompatibleWithNodeVersion intersects v.2 nodeVersion).map
        Prod.fst).getLast? <;> rfl

/-- C4: a published version with no declared engine constraint is
incompatible with every runtime range and never survives the compatibility
filter. -/
theorem C4_absent_engines_incompatible (intersects : Intersects)
    (nodeVersionRange : String) (d : NpmData) :
    isCompatibleWithNodeVersion intersects none nodeVersionRange = false
    ∧ ((d.versions.filter fun v =>
        isCompatibleWithNodeVersion intersects v.2 nodeVersionRange).all
          fun v => v.2.isSome) = true := by
  refine ⟨rfl, ?_⟩
  rw [List.all_eq_true]
  intro v hv
  rw [List.mem_filter] at hv
  obtain ⟨_, hcomp⟩ := hv
  cases hv2 : v.2 with
  | some r => simp [hv2]
  | none =>
    rw [hv2] at hcomp
    simp [isCompatibleWithNodeVersion] at hcomp

/-- C5, counterexample to the failure clause as stated: a manifest whose
Drift Analyzer invocation did not yield a list because the process failed
does not let processing proceed to the next manifest; the run aborts,
although the healthy second manifest alone would yield one row. -/
theorem C5_counterexample :
    mainLoop exIntersects exAxiosFail "r2" [exManifestReject2, exManifestOk] =
      .error "libyear crashed"
    ∧ mainLoop exIntersects exAxiosFail "r2" [exManifestOk] =
      .ok [{ module := "r2/lib", dependency := "a", type := "production"
             currentVersion := "^1.0.0", latestVersion := "Unknown"
             npmLatest := "Unknown", npmWanted := "Unknown", easyUpgrade := false
             node16Version := "N/A", node18Version := "N/A", node20Version := "N/A"
             unused := false, drift := "Unknown", pulse := "Unknown"
             releases := "0", major := "0", minor := "0", patch := "0" }] :=
  ⟨rfl, rfl⟩

/-- C5 (amended): when the Drift Analyzer resolves with a list, the manifest
contributes exactly one row per parsed Dependency Declaration; when it
resolves with a non-list value, the manifest contributes zero rows and the
loop continues with the remaining manifests (a rejected invocation instead
aborts the run, see C1). -/
theorem C5_row_count_policy (intersects : Intersects) (axiosGet : AxiosGet)
    (rootDirName : String) (m : ManifestInput) (rest : List ManifestInput) :
    (∀ l, runLibyearAnalysis m.libyearExec = .ok (.arr l) →
      (processDeps (analyzeDependencies m.dirName rootDirName m.packageJson) l
          (runNpmCheck m.npmCheckOutcome)
          (runNodeCompatibility intersects axiosGet
            (analyzeDependencies m.dirName rootDirName m.packageJson))).map
          List.length =
        .ok (analyzeDependencies m.dirName rootDirName m.packageJson).length
      ∧ mainLoop intersects axiosGet rootDirName (m :: rest) =
        (processDeps (analyzeDependencies m.dirName rootDirName m.packageJson) l
            (runNpmCheck m.npmCheckOutcome)
            (runNodeCompatibility intersects axiosGet
              (analyzeDependencies m.dirName rootDirName m.packageJson))).bind
          fun rows => (mainLoop intersects axiosGet rootDirName rest).map
            fun restRows => rows ++ restRows)
    ∧ (∀ s, runLibyearAnalysis m.libyearExec = .ok (.nonArr s) →
        mainLoop intersects axiosGet rootDirName (m :: rest) =
          mainLoop intersects axiosGet rootDirName rest) := by
  constructor
  · intro l hl
    obtain ⟨rows, hrows, hlen⟩ := processDeps_ok intersects axiosGet
      (analyzeDependencies m.dirName rootDirName m.packageJson)
      (analyzeDependencies m.dirName rootDirName m.packageJson)
      l (runNpmCheck m.npmCheckOutcome)
      (fun d hd => List.mem_map_of_mem _ hd)
    constructor
    · rw [hrows]
      simp [Except.map, hlen]
    · simp only [mainLoop, hl]
      rw [hrows]
      cases hrest : mainLoop intersects axiosGet rootDirName rest <;>
        simp [Except.bind, Except.map]
  · intro s hs
    simp [mainLoop, hs]

/-- C5 witness: the row-count equation applied to a concrete manifest with a
resolved list. -/
theorem C5_row_count_policy_witness :
    (processDeps (analyzeDependencies exManifestOk.dirName "root" exManifestOk.packageJson) []
        (runNpmCheck exManifestOk.npmCheckOutcome)
        (runNodeCompatibility exIntersects exAxiosFail
          (analyzeDependencies exManifestOk.dirName "root" exManifestOk.packageJson))).map
        List.length =
      .ok (analyzeDependencies exManifestOk.dirName "root" exManifestOk.packageJson).length
    ∧ mainLoop exIntersects exAxiosFail "root" [exManifestOk] =
      (processDeps (analyzeDependencies exManifestOk.dirName "root" exManifestOk.packageJson) []
          (runNpmCheck exManifestOk.npmCheckOutcome)
          (runNodeCompatibility exIntersects exAxiosFail
            (analyzeDependencies exManifestOk.dirName "root" exManifestOk.packageJson))).bind
        fun rows => (mainLoop exIntersects exAxiosFail "root" []).map
          fun restRows => rows ++ restRows :=
  (C5_row_count_policy exIntersects exAxiosFail "root" exManifestOk []).1 [] rfl

/-- C6: every assembled Report Row carries its declaration's dependency
name; a drift or outdated-check join miss does not abort row assembly and
only degrades the affected fields to the defaults "Unknown", "0" and
false. -/
theorem C6_join_name_invariant (intersects : Intersects) (axiosGet : AxiosGet)
    (deps : List DependencyDecl) (dep : DependencyDecl)
    (libyearResults : List LibyearRecord) (npmCheckResults : List NpmCheckRecord)
    (n16 n18 n20 : String) (h : dep ∈ deps) :
    (buildRow dep libyearResults npmCheckResults
        (runNodeCompatibility intersects axiosGet deps)).map ReportRow.dependency =
      .ok dep.dependency
    ∧ (libyearResults.find? (fun r => r.dependency == dep.dependency) = none →
       npmCheckResults.find? (fun r => r.moduleName == dep.dependency) = none →
       buildRow dep libyearResults npmCheckResults
           (runNodeCompatibility intersects axiosGet deps) =
         .ok (formatDependencyResult dep none none
           (findNodeCompatibility intersects axiosGet dep.dependency).node16Version
           (findNodeCompatibility intersects axiosGet dep.dependency).node18Version
           (findNodeCompatibility intersects axiosGet dep.dependency).node20Version))
    ∧ (formatDependencyResult dep none none n16 n18 n20).dependency = dep.dependency
    ∧ (formatDependencyResult dep none none n16 n18 n20).latestVersion = "Unknown"
    ∧ (formatDependencyResult dep none none n16 n18 n20).npmLatest = "Unknown"
    ∧ (formatDependencyResult dep none none n16 n18 n20).npmWanted = "Unknown"
    ∧ (formatDependencyResult dep none none n16 n18 n20).easyUpgrade = false
    ∧ (formatDependencyResult dep none none n16 n18 n20).unused = false
    ∧ (formatDependencyResult dep none none n16 n18 n20).drift = "Unknown"
    ∧ (formatDependencyResult dep none none n16 n18 n20).pulse = "Unknown"
    ∧ (formatDependencyResult dep none none n16 n18 n20).releases = "0"
    ∧ (formatDependencyResult dep none none n16 n18 n20).major = "0"
    ∧ (formatDependencyResult dep none none n16 n18 n20).minor = "0"
    ∧ (formatDependencyResult dep none none n16 n18 n20).patch = "0" := by
  have hname : dep.dependency ∈ deps.map DependencyDecl.dependency :=
    List.mem_map_of_mem _ h
  refine ⟨?_, ?_, rfl, rfl, rfl, rfl, rfl, rfl, rfl, rfl, rfl, rfl, rfl, rfl⟩
  · rw [buildRow_hit intersects axiosGet deps dep libyearResults npmCheckResults hname]
    rfl
  · intro hly hnpm
    rw [buildRow_hit intersects axiosGet deps dep libyearResults npmCheckResults hname,
      hly, hnpm]

/-- C6 witness: the invariant at a concrete declaration whose drift and
outdated-check joins both miss. -/
theorem C6_join_name_invariant_witness :
    (buildRow exDep [] [] (runNodeCompatibility exIntersects exAxiosFail [exDep])).map
        ReportRow.dependency = .ok exDep.dependency
    ∧ buildRow exDep [] [] (runNodeCompatibility exIntersects exAxiosFail [exDep]) =
      .ok (formatDependencyResult exDep none none
        (findNodeCompatibility exIntersects exAxiosFail exDep.dependency).node16Version
        (findNodeCompatibility exIntersects exAxiosFail exDep.dependency).node18Version
        (findNodeCompatibility exIntersects exAxiosFail exDep.dependency).node20Version) :=
  ⟨(C6_join_name_invariant exIntersects exAxiosFail [exDep] exDep [] [] "x" "y" "z"
      (List.mem_singleton.mpr rfl)).1,
   (C6_join_name_invariant exIntersects exAxiosFail [exDep] exDep [] [] "x" "y" "z"
      (List.mem_singleton.mpr rfl)).2.1 rfl rfl⟩

/-- C7: every declaration parsed from one manifest carries the module label
that equals the root directory name when the manifest directory's basename
equals it, and "{root}/{dirBasename}" otherwise. -/
theorem C7_module_label (dirName rootDirName : String) (packageJson : PackageJson) :
    ((analyzeDependencies dirName rootDirName packageJson).all fun d =>
      d.module == if dirName = rootDirName then rootDirName
        else rootDirName ++ "/" ++ dirName) = true := by
  rw [List.all_eq_true]
  intro d hd
  have hmod : d.module =
      if dirName = rootDirName then dirName else rootDirName ++ "/" ++ dirName := by
    simp only [analyzeDependencies, List.mem_append, List.mem_map] at hd
    rcases hd with ⟨p, _, rfl⟩ | ⟨p, _, rfl⟩ <;> rfl
  simp only [hmod]
  by_cases h : dirName = rootDirName <;> simp [h]

/-- C8: the older report variant derives "Node upgrade blocking" as "TRUE"
unless the four runtime-compatibility strings are all identical (then
"FALSE"); the older CSV schema has the column and the newer schema does
not. -/
theorem C8_node_upgrade_blocking (dep : DependencyDecl)
    (libyearDepResult : Option LibyearRecord) (npmCheckResult : Option NpmCheckRecord)
    (node14 node16 node18 node20 : String) :
    (Older.formatDependencyResult dep libyearDepResult npmCheckResult
        node14 node16 node18 node20).nodeUpgradeBlocking =
      (if node14 = node16 ∧ node16 = node18 ∧ node18 = node20 then "FALSE" else "TRUE")
    ∧ ("nodeUpgradeBlocking", "Node upgrade blocking") ∈ Older.generateCsvHeader
    ∧ "Node upgrade blocking" ∉ generateCsvHeader.map Prod.snd := by
  refine ⟨?_, by decide, by decide⟩
  show (if (node14 == node16 && node16 == node18 && node18 == node20) = true
    then "FALSE" else "TRUE") = _
  by_cases h1 : node14 = node16 <;> by_cases h2 : node16 = node18 <;>
    by_cases h3 : node18 = node20 <;> simp [h1, h2, h3]

/-- C9: `formatDecimal` turns every defined number into a two-decimal,
comma-separated string, with 3.14159 rendered as "3,14", and turns
`undefined`/`null` into "Unknown"; the missing release/major/minor/patch
counts render as "0". -/
theorem C9_format_decimal :
    (∀ q : ℚ, ∃ a b : String, formatDecimal (some q) = a ++ "," ++ b
      ∧ b.length = 2 ∧ b.data.all Char.isDigit = true)
    ∧ formatDecimal (some (314159 / 100000 : ℚ)) = "3,14"
    ∧ formatDecimal none = "Unknown"
    ∧ ∀ (dep : DependencyDecl) (npmCheckResult : Option NpmCheckRecord)
        (n16 n18 n20 : String),
        (formatDependencyResult dep none npmCheckResult n16 n18 n20).drift = "Unknown"
        ∧ (formatDependencyResult dep none npmCheckResult n16 n18 n20).pulse = "Unknown"
        ∧ (formatDependencyResult dep none npmCheckResult n16 n18 n20).releases = "0"
        ∧ (formatDependencyResult dep none npmCheckResult n16 n18 n20).major = "0"
        ∧ (formatDependencyResult dep none npmCheckResult n16 n18 n20).minor = "0"
        ∧ (formatDependencyResult dep none npmCheckResult n16 n18 n20).patch = "0" := by
  refine ⟨?_, ?_, rfl, fun dep npm n16 n18 n20 => ⟨rfl, rfl, rfl, rfl, rfl, rfl⟩⟩
  · intro q
    by_cases hq : q < 0
    · exact ⟨_, _, formatDecimal_some_neg q hq, pad2_length _, pad2_isDigit _⟩
    · exact ⟨_, _, formatDecimal_some_nonneg q hq, pad2_length _, pad2_isDigit _⟩
  · have h1 : ¬(314159 / 100000 : ℚ) < 0 := by norm_num
    rw [formatDecimal_some_nonneg _ h1]
    have h2 : ⌊(314159 / 100000 : ℚ) * 100 + 1 / 2⌋ = 314 :=
      Int.floor_eq_iff.mpr ⟨by norm_num, by norm_num⟩
    rw [h2]
    rfl

/-- C10: the compatibility runner returns exactly one record per input
declaration bearing that declaration's name (in both variants), so the
assembler's name-keyed compatibility lookup always hits and the row build
never dereferences an absent value. -/
theorem C10_compat_records_total (intersects : Intersects) (axiosGet : AxiosGet)
    (deps : List DependencyDecl) (dep : DependencyDecl) (h : dep ∈ deps) :
    (runNodeCompatibility intersects axiosGet deps).map CompatRecord.dependency =
      deps.map DependencyDecl.dependency
    ∧ ((runNodeCompatibility intersects axiosGet deps).find?
        (fun r => r.dependency == dep.dependency)).map CompatRecord.dependency =
      some dep.dependency
    ∧ (∀ (libyearResults : List LibyearRecord) (npmCheckResults : List NpmCheckRecord),
        (buildRow dep libyearResults npmCheckResults
          (runNodeCompatibility intersects axiosGet deps)).map ReportRow.dependency =
        .ok dep.dependency)
    ∧ (Older.runNodeCompatibility intersects axiosGet deps).map
        Older.CompatRecord.dependency = deps.map DependencyDecl.dependency := by
  refine ⟨runNodeCompatibility_names intersects axiosGet deps, ?_, ?_,
    older_runNodeCompatibility_names intersects axiosGet deps⟩
  · rw [runNodeCompatibility_find intersects axiosGet deps dep.dependency
      (List.mem_map_of_mem _ h)]
    rfl
  · intro libyearResults npmCheckResults
    rw [buildRow_hit intersects axiosGet deps dep libyearResults npmCheckResults
      (List.mem_map_of_mem _ h)]
    rfl

/-- C10 witness: totality of the compatibility join at a concrete
declaration list. -/
theorem C10_compat_records_total_witness :
    (runNodeCompatibility exIntersects exAxiosOk [exDep]).map CompatRecord.dependency =
      [exDep].map DependencyDecl.dependency
    ∧ ((runNodeCompatibility exIntersects exAxiosOk [exDep]).find?
        (fun r => r.dependency == exDep.dependency)).map CompatRecord.dependency =
      some exDep.dependency
    ∧ (buildRow exDep [] [] (runNodeCompatibility exIntersects exAxiosOk [exDep])).map
        ReportRow.dependency = .ok exDep.dependency
    ∧ (Older.runNodeCompatibility exIntersects exAxiosOk [exDep]).map
        Older.CompatRecord.dependency = [exDep].map DependencyDecl.dependency :=
  ⟨(C10_compat_records_total exIntersects exAxiosOk [exDep] exDep
      (List.mem_singleton.mpr rfl)).1,
   (C10_compat_records_total exIntersects exAxiosOk [exDep] exDep
      (List.mem_singleton.mpr rfl)).2.1,
   (C10_compat_records_total exIntersects exAxiosOk [exDep] exDep
      (List.mem_singleton.mpr rfl)).2.2.1 [] [],
   (C10_compat_records_total exIntersects exAxiosOk [exDep] exDep
      (List.mem_singleton.mpr rfl)).2.2.2⟩

end DepAnalyzer


